import Mathlib

/-!
Verification of `src/unready-fetch.ts` (the `unready-fetch` package).

The source exports a factory `unreadyFetch(mock?, timout = 1000)` returning a
fetch-like function `(input, init?) => Promise<UnreadyFetchResponse>`.  The
returned function schedules a `setTimeout` callback computing a mock response
from `mock` and, when `init?.signal` is present, attaches an `"abort"` event
listener that clears the timer and rejects with `init.signal?.reason`.

We shallowly embed:
  * JavaScript values (`JSValue`) with the truthiness and nullish-coalescing
    operators the source relies on (`!x`, `!!x`, `x ?? y`, `JSON.stringify`);
  * the two default payload constants;
  * the mock configuration (`UnreadyFetchMock`) and the produced response
    (`UnreadyFetchResponse`), whose `json()`/`text()` accessors are modelled
    as the pure functions of the values their promises resolve to;
  * the `setTimeout` callback body as `mockResponse` (lines 89-127);
  * the promise / timer / abort-listener race as a small event system
    (`step`, `run`) over schedules of host events, with `validSchedule`
    capturing host `AbortSignal` semantics: the `"abort"` event fires at most
    once, and never fires for a listener attached after the signal was
    already aborted.
-/

/-- A JavaScript value, as far as the source manipulates them: the mock
payloads are arbitrary (`S = any`, `E = any`). -/
inductive JSValue where
  | undefined : JSValue
  | null : JSValue
  | bool : Bool → JSValue
  | num : Int → JSValue
  | str : String → JSValue
  | arr : List JSValue → JSValue
  | obj : List (String × JSValue) → JSValue

/-- Boolean test for the value `undefined` (used where `JSON.stringify`
special-cases it). -/
def JSValue.isUndefined : JSValue → Bool
  | .undefined => true
  | _ => false

/-- JavaScript truthiness of a value (the `!!x` coercion; `!x` is its
negation). -/
def JSValue.truthy : JSValue → Bool
  | .undefined => false
  | .null => false
  | .bool b => b
  | .num n => n != 0
  | .str s => s != ""
  | .arr _ => true
  | .obj _ => true

/-- A value is nullish when it is `null` or `undefined`; these are the values
replaced by the right operand of `??`. -/
def JSValue.nullish : JSValue → Bool
  | .undefined => true
  | .null => true
  | _ => false

/-- The JavaScript nullish-coalescing operator `v ?? d`. -/
def jsCoalesce (v d : JSValue) : JSValue :=
  if v.nullish then d else v

mutual
/-- JSON.stringify on the embedded values: nullish and boolean literals,
numbers, quoted strings, arrays, objects.  Inside an array `undefined`
serializes as `null`; inside an object a field holding `undefined` is
dropped.  (A top-level `undefined` never reaches `text()` in the source: the
payload has already gone through `??`.) -/
def jsonStringify : JSValue → String
  | .undefined => "undefined"
  | .null => "null"
  | .bool b => if b then "true" else "false"
  | .num n => toString n
  | .str s => "\"" ++ s ++ "\""
  | .arr xs => "[" ++ stringifyElems xs ++ "]"
  | .obj fs => "\x7b" ++ stringifyFields fs ++ "\x7d"

/-- Serialize array elements, separated by commas; `undefined` becomes
`null`. -/
def stringifyElems : List JSValue → String
  | [] => ""
  | [x] => if x.isUndefined then "null" else jsonStringify x
  | x :: xs =>
      (if x.isUndefined then "null" else jsonStringify x) ++ "," ++ stringifyElems xs

/-- Serialize object fields, separated by commas; a field whose value is
`undefined` is omitted. -/
def stringifyFields : List (String × JSValue) → String
  | [] => ""
  | (k, v) :: fs =>
      if v.isUndefined then stringifyFields fs
      else
        "\"" ++ k ++ "\":" ++ jsonStringify v ++
          (if (fs.filter (fun kv => !kv.2.isUndefined)).isEmpty then "" else ",") ++
          stringifyFields fs
end

/-- The constant `defaultSuccessResponse` of the source (lines 14-22). -/
def defaultSuccessResponse : JSValue :=
  .obj [("status", .str "success"), ("code", .num 200),
        ("data", .obj [("id", .num 123), ("name", .str "Sample Data")]),
        ("errors", .null)]

/-- The constant `defaultErrorResponse` of the source (lines 24-35). -/
def defaultErrorResponse : JSValue :=
  .obj [("status", .str "error"), ("code", .num 400), ("data", .null),
        ("errors", .arr [.obj [("field", .str "email"),
                               ("message", .str "Email is required")]]),
        ("trace_id", .str "abc123xyz")]

/-- The `UnreadyFetchMock` configuration object.  All three fields are
optional in TypeScript; reading an absent field yields `undefined`, so
`success` and `error` (type `any`) are modelled as `JSValue` defaulting to
`undefined`, and `status` (type `number`, possibly absent) as `Option Int`. -/
structure UnreadyFetchMock where
  success : JSValue := .undefined
  error : JSValue := .undefined
  status : Option Int := none

/-- `mock?.success`: optional chaining through a possibly-undefined `mock`. -/
def mockSuccess : Option UnreadyFetchMock → JSValue
  | none => .undefined
  | some m => m.success

/-- `mock?.error`. -/
def mockError : Option UnreadyFetchMock → JSValue
  | none => .undefined
  | some m => m.error

/-- `mock?.status`. -/
def mockStatus : Option UnreadyFetchMock → Option Int
  | none => none
  | some m => m.status

/-- Truthiness of `mock?.status` (a `number | undefined`): `undefined` and
`0` are falsy. -/
def statusTruthy : Option Int → Bool
  | none => false
  | some n => n != 0

/-- The comparison `mock.status >= 400`; in the source it is only evaluated
under the truthiness guard, where `status` is a number. -/
def statusGE400 : Option Int → Bool
  | none => false
  | some n => 400 ≤ n

/-- `mock?.status ?? d` for a numeric default `d`. -/
def statusCoalesce (s : Option Int) (d : Int) : Int :=
  s.getD d

/-- The produced `UnreadyFetchResponse`.  `json()` and `text()` return
promises resolving to fixed values captured at construction; we model the
accessors as the pure functions `Unit → _` of those resolved values, so that
repeated calls are expressible. -/
structure UnreadyFetchResponse where
  url : String
  ok : Bool
  status : Int
  json : Unit → JSValue
  text : Unit → String

/-- The body of the `setTimeout` callback (source lines 89-127): branch
selection `(mock?.status && mock.status >= 400) || (!mock?.success &&
!!mock?.error)`, then construction of the error response (payload
`mock?.error ?? defaultErrorResponse`, status `mock?.status ?? 400`) or the
success response (payload `mock?.success ?? defaultSuccessResponse`, status
`mock?.status ?? 200`).  `input` is the string form of the `input` argument
(`input.toString()` is how the source reads it). -/
def mockResponse (mock : Option UnreadyFetchMock) (input : String) :
    UnreadyFetchResponse :=
  if (statusTruthy (mockStatus mock) && statusGE400 (mockStatus mock))
      || (!(mockSuccess mock).truthy && (mockError mock).truthy) then
    let errData := jsCoalesce (mockError mock) defaultErrorResponse
    { url := input
      ok := false
      status := statusCoalesce (mockStatus mock) 400
      json := fun _ => errData
      text := fun _ => jsonStringify errData }
  else
    let data := jsCoalesce (mockSuccess mock) defaultSuccessResponse
    { url := input
      ok := true
      status := statusCoalesce (mockStatus mock) 200
      json := fun _ => data
      text := fun _ => jsonStringify data }

/-- The caller-supplied `AbortSignal` of `init?.signal`: its `reason` value
and whether it was already in the aborted state when the returned function
was invoked. -/
structure AbortSignal where
  reason : JSValue := .undefined
  aborted : Bool := false

/-- `init.signal?.reason`, read in the abort listener. -/
def signalReason : Option AbortSignal → JSValue
  | none => .undefined
  | some sg => sg.reason

/-- Host events a pending invocation can observe: the `setTimeout` timer
firing, or the signal dispatching its `"abort"` event. -/
inductive JSEvent where
  | timer : JSEvent
  | abort : JSEvent
deriving DecidableEq

/-- The settlement state of the returned promise. -/
inductive PromiseState where
  | pending : PromiseState
  | resolved : UnreadyFetchResponse → PromiseState
  | rejected : JSValue → PromiseState

/-- Settling a promise: the first settlement wins; settling an
already-settled promise is silently ignored. -/
def PromiseState.settle (p q : PromiseState) : PromiseState :=
  match p with
  | .pending => q
  | _ => p

/-- The per-invocation state built by the returned function (source lines
88-136): the promise, whether the `setTimeout` timer is still pending
(`clearTimeout` and firing both clear it), and whether an abort listener was
attached (`if (init?.signal)`). -/
structure InvocationState where
  promise : PromiseState
  timerActive : Bool
  listener : Bool

/-- State at invocation time: promise pending, timer scheduled, listener
attached exactly when a signal was supplied.  Note the source attaches the
listener without consulting `signal.aborted`. -/
def initState (signal : Option AbortSignal) : InvocationState :=
  { promise := .pending, timerActive := true, listener := signal.isSome }

/-- One host event processed against the invocation's callbacks.  The timer
callback (lines 89-127) runs only if the timer was not cleared, and resolves
with `mockResponse`.  The abort listener (lines 131-135) runs only if it was
attached; it calls `clearTimeout(timeoutId)` and rejects with
`init.signal?.reason`. -/
def step (mock : Option UnreadyFetchMock) (input : String)
    (signal : Option AbortSignal) (s : InvocationState) : JSEvent → InvocationState
  | .timer =>
      if s.timerActive then
        { s with
          timerActive := false
          promise := s.promise.settle (.resolved (mockResponse mock input)) }
      else s
  | .abort =>
      if s.listener then
        { s with
          timerActive := false
          promise := s.promise.settle (.rejected (signalReason signal)) }
      else s

/-- Run one invocation against a schedule of host events. -/
def run (mock : Option UnreadyFetchMock) (input : String)
    (signal : Option AbortSignal) (evs : List JSEvent) : InvocationState :=
  evs.foldl (step mock input signal) (initState signal)

/-- Schedules the host can actually produce for one invocation: `setTimeout`
fires its callback at most once, the `"abort"` event is dispatched at most
once, and it is dispatched only when a signal was supplied that was not
already aborted at invocation time — a signal that was already aborted
dispatched its `"abort"` event before the listener was attached, so the
listener never runs. -/
def validSchedule (signal : Option AbortSignal) (evs : List JSEvent) : Prop :=
  evs.count JSEvent.timer ≤ 1 ∧ evs.count JSEvent.abort ≤ 1 ∧
    (JSEvent.abort ∈ evs → ∃ sg, signal = some sg ∧ sg.aborted = false)

/-- Settling an already-settled promise leaves it unchanged. -/
theorem PromiseState.settle_of_ne_pending {p : PromiseState} (q : PromiseState)
    (h : p ≠ .pending) : p.settle q = p := by
  cases p with
  | pending => exact absurd rfl h
  | resolved r => rfl
  | rejected r => rfl

/-- A settled promise stays settled with the same outcome through any
further events: settlement is at most once. -/
theorem run_settled_stays (mock : Option UnreadyFetchMock) (input : String)
    (signal : Option AbortSignal) (evs : List JSEvent) (s : InvocationState)
    (h : s.promise ≠ .pending) :
    (evs.foldl (step mock input signal) s).promise = s.promise := by
  induction evs generalizing s with
  | nil => rfl
  | cons e t ih =>
    have hstep : (step mock input signal s e).promise = s.promise := by
      cases e with
      | timer =>
        simp only [step]
        split
        · simp [PromiseState.settle_of_ne_pending _ h]
        · rfl
      | abort =>
        simp only [step]
        split
        · simp [PromiseState.settle_of_ne_pending _ h]
        · rfl
    rw [List.foldl_cons, ih _ (by rw [hstep]; exact h), hstep]

/-- A cleared (or exhausted) timer never becomes pending again. -/
theorem run_timer_stays_cleared (mock : Option UnreadyFetchMock) (input : String)
    (signal : Option AbortSignal) (evs : List JSEvent) (s : InvocationState)
    (h : s.timerActive = false) :
    (evs.foldl (step mock input signal) s).timerActive = false := by
  induction evs generalizing s with
  | nil => exact h
  | cons e t ih =>
    have hstep : (step mock input signal s e).timerActive = false := by
      cases e with
      | timer => simp [step, h]
      | abort =>
        simp only [step]
        split
        · rfl
        · exact h
    rw [List.foldl_cons]
    exact ih _ hstep

/-- On a schedule with no abort event, the promise is resolved with the mock
response exactly when the timer fires, and otherwise still pending. -/
theorem run_no_abort (mock : Option UnreadyFetchMock) (input : String)
    (signal : Option AbortSignal) (evs : List JSEvent)
    (h : JSEvent.abort ∉ evs) :
    (run mock input signal evs).promise =
      if JSEvent.timer ∈ evs then .resolved (mockResponse mock input)
      else .pending := by
  cases evs with
  | nil => rfl
  | cons e t =>
    cases e with
    | abort => exact absurd (List.mem_cons_self _ _) h
    | timer =>
      have h1 : step mock input signal (initState signal) JSEvent.timer =
          { promise := .resolved (mockResponse mock input), timerActive := false,
            listener := signal.isSome } := by
        simp [step, initState, PromiseState.settle]
      rw [run, List.foldl_cons, h1,
        run_settled_stays mock input signal t _ (by intro hc; cases hc)]
      simp

/-- With no signal supplied, no abort listener is attached, so abort events
are ignored: the promise resolves with the mock response exactly when the
timer fires and is never rejected. -/
theorem run_no_signal (mock : Option UnreadyFetchMock) (input : String)
    (evs : List JSEvent) :
    (run mock input none evs).promise =
      if JSEvent.timer ∈ evs then .resolved (mockResponse mock input)
      else .pending := by
  induction evs with
  | nil => rfl
  | cons e t ih =>
    cases e with
    | abort =>
      have h1 : step mock input none (initState none) JSEvent.abort =
          initState none := by
        simp [step, initState]
      rw [run, List.foldl_cons, h1]
      rw [run] at ih
      rw [ih]
      simp
    | timer =>
      have h1 : step mock input none (initState none) JSEvent.timer =
          { promise := .resolved (mockResponse mock input), timerActive := false,
            listener := false } := by
        simp [step, initState, PromiseState.settle]
      rw [run, List.foldl_cons, h1,
        run_settled_stays mock input none t _ (by intro hc; cases hc)]
      simp

/-- Every reachable promise state is pending, resolved with the mock
response, or rejected with the signal's reason: no other outcome exists. -/
theorem run_promise_cases (mock : Option UnreadyFetchMock) (input : String)
    (signal : Option AbortSignal) (evs : List JSEvent) :
    (run mock input signal evs).promise = .pending ∨
    (run mock input signal evs).promise = .resolved (mockResponse mock input) ∨
    (run mock input signal evs).promise = .rejected (signalReason signal) := by
  suffices h : ∀ s : InvocationState,
      (s.promise = .pending ∨ s.promise = .resolved (mockResponse mock input) ∨
        s.promise = .rejected (signalReason signal)) →
      ((evs.foldl (step mock input signal) s).promise = .pending ∨
        (evs.foldl (step mock input signal) s).promise =
          .resolved (mockResponse mock input) ∨
        (evs.foldl (step mock input signal) s).promise =
          .rejected (signalReason signal)) by
    exact h (initState signal) (Or.inl rfl)
  induction evs with
  | nil => intro s hs; exact hs
  | cons e t ih =>
    intro s hs
    rw [List.foldl_cons]
    refine ih _ ?_
    cases e with
    | timer =>
      simp only [step]
      split
      · rcases hs with h | h | h <;> rw [h] <;> simp [PromiseState.settle]
      · exact hs
    | abort =>
      simp only [step]
      split
      · rcases hs with h | h | h <;> rw [h] <;> simp [PromiseState.settle]
      · exact hs

/-- A truthy value is not nullish. -/
theorem JSValue.nullish_eq_false_of_truthy {v : JSValue} (h : v.truthy = true) :
    v.nullish = false := by
  cases v <;> simp_all [JSValue.truthy, JSValue.nullish]

/-- C2 as stated is false: a spec whose `success` field is set to `null`
(present, status absent) resolves with `ok = true` but `json()` resolves to
the default success payload, not to the supplied `null` value — the source
replaces nullish success payloads via `mock?.success ?? defaultSuccessResponse`. -/
theorem C2_null_success_counterexample :
    (mockResponse (some { success := JSValue.null }) "https://api").ok = true ∧
    (mockResponse (some { success := JSValue.null }) "https://api").json () =
      defaultSuccessResponse ∧
    defaultSuccessResponse ≠ JSValue.null := by
  refine ⟨rfl, rfl, fun h => JSValue.noConfusion h⟩

/-- C2 (amended): for every spec whose `success` field is set to a truthy
value, with `status` absent or < 400 and no abort, the resolved response has
`ok = true`, status `spec.status ?? 200`, and `json()` resolves to exactly
`spec.success`. -/
theorem C2_success_branch (m : UnreadyFetchMock) (input : String)
    (hs : m.success.truthy = true)
    (hstat : ∀ n, m.status = some n → n < 400) :
    (mockResponse (some m) input).ok = true ∧
    (mockResponse (some m) input).status = statusCoalesce m.status 200 ∧
    (mockResponse (some m) input).json () = m.success := by
  have hge : statusGE400 (mockStatus (some m)) = false := by
    simp only [mockStatus]
    cases hm : m.status with
    | none => rfl
    | some n =>
      have h := hstat n hm
      simp only [statusGE400, decide_eq_false_iff_not]
      omega
  have hcond : ((statusTruthy (mockStatus (some m)) &&
        statusGE400 (mockStatus (some m))) ||
      (!(mockSuccess (some m)).truthy && (mockError (some m)).truthy)) = false := by
    simp [mockSuccess, hs, hge]
  unfold mockResponse
  rw [if_neg (by simp [hcond])]
  refine ⟨rfl, rfl, ?_⟩
  show jsCoalesce (mockSuccess (some m)) defaultSuccessResponse = m.success
  simp [mockSuccess, jsCoalesce, JSValue.nullish_eq_false_of_truthy hs]

/-- Witness for C2_success_branch at the concrete spec
`{ success: "yay", status: 201 }`. -/
theorem C2_success_branch_witness :
    (mockResponse (some { success := JSValue.str "yay", status := some 201 })
        "https://api").ok = true ∧
    (mockResponse (some { success := JSValue.str "yay", status := some 201 })
        "https://api").status =
      statusCoalesce (some ((201 : Int))) 200 ∧
    (mockResponse (some { success := JSValue.str "yay", status := some 201 })
        "https://api").json () = JSValue.str "yay" :=
  C2_success_branch { success := JSValue.str "yay", status := some 201 }
    "https://api" rfl (by intro n h; injection h with h'; omega)

/-- C3 as stated is false: with `success` undefined and `error` set to the
defined value `false` (status absent), the claim demands the error branch,
but the source tests `!!mock?.error` — truthiness, not definedness — so the
invocation resolves on the success branch with `ok = true`. -/
theorem C3_defined_error_counterexample :
    (mockResponse (some { error := JSValue.bool false }) "https://api").ok = true ∧
    JSValue.bool false ≠ JSValue.undefined :=
  ⟨rfl, fun h => JSValue.noConfusion h⟩

/-- C3 (amended): the error branch (`ok = false`) is taken if and only if
`spec.status` is set to a number ≥ 400, or `spec.success` is falsy and
`spec.error` is truthy; in that branch `json()` resolves to `spec.error` if
non-nullish and otherwise to the Default Error Payload (`spec.error ?? default`),
and the response status is `spec.status ?? 400`. -/
theorem C3_error_branch_iff (mock : Option UnreadyFetchMock) (input : String) :
    ((mockResponse mock input).ok = false ↔
      ((∃ n, mockStatus mock = some n ∧ 400 ≤ n) ∨
        ((mockSuccess mock).truthy = false ∧ (mockError mock).truthy = true))) ∧
    ((mockResponse mock input).ok = false →
      (mockResponse mock input).json () =
        jsCoalesce (mockError mock) defaultErrorResponse ∧
      (mockResponse mock input).status = statusCoalesce (mockStatus mock) 400) := by
  have hcond : (((statusTruthy (mockStatus mock) && statusGE400 (mockStatus mock)) ||
      (!(mockSuccess mock).truthy && (mockError mock).truthy)) = true) ↔
      ((∃ n, mockStatus mock = some n ∧ 400 ≤ n) ∨
        ((mockSuccess mock).truthy = false ∧ (mockError mock).truthy = true)) := by
    cases hst : mockStatus mock with
    | none =>
      simp [statusTruthy, statusGE400, Bool.not_eq_true']
    | some n =>
      simp only [statusTruthy, statusGE400, Bool.or_eq_true, Bool.and_eq_true,
        bne_iff_ne, ne_eq, decide_eq_true_eq, Bool.not_eq_true',
        Option.some.injEq]
      constructor
      · rintro (⟨hn0, hn⟩ | ⟨h1, h2⟩)
        · exact Or.inl ⟨n, rfl, hn⟩
        · exact Or.inr ⟨h1, h2⟩
      · rintro (⟨m, hm, hge⟩ | ⟨h1, h2⟩)
        · subst hm
          exact Or.inl ⟨by omega, hge⟩
        · exact Or.inr ⟨h1, h2⟩
  by_cases hc : ((statusTruthy (mockStatus mock) && statusGE400 (mockStatus mock)) ||
      (!(mockSuccess mock).truthy && (mockError mock).truthy)) = true
  · unfold mockResponse
    rw [if_pos hc]
    exact ⟨iff_of_true rfl (hcond.1 hc), fun _ => ⟨rfl, rfl⟩⟩
  · unfold mockResponse
    rw [if_neg hc]
    refine ⟨iff_of_false (fun h => Bool.noConfusion h) (fun hr => hc (hcond.2 hr)), ?_⟩
    intro h
    exact absurd h (fun h => Bool.noConfusion h)

/-- C4: a status set to a number ≥ 400 forces the error branch regardless of
the success payload: `ok = false` and the response status is `spec.status`;
and when `spec.error` is absent the payload falls back to the Default Error
Payload. -/
theorem C4_status_forces_error (m : UnreadyFetchMock) (input : String) (n : Int)
    (h1 : m.status = some n) (h2 : 400 ≤ n) :
    (mockResponse (some m) input).ok = false ∧
    (mockResponse (some m) input).status = n ∧
    (m.error = JSValue.undefined →
      (mockResponse (some m) input).json () = defaultErrorResponse) := by
  have hc : ((statusTruthy (mockStatus (some m)) &&
        statusGE400 (mockStatus (some m))) ||
      (!(mockSuccess (some m)).truthy && (mockError (some m)).truthy)) = true := by
    have hl : (statusTruthy (mockStatus (some m)) &&
        statusGE400 (mockStatus (some m))) = true := by
      simp only [mockStatus, h1, statusTruthy, statusGE400, Bool.and_eq_true,
        bne_iff_ne, ne_eq, decide_eq_true_eq]
      omega
    simp [hl]
  unfold mockResponse
  rw [if_pos hc]
  refine ⟨rfl, ?_, ?_⟩
  · show statusCoalesce (mockStatus (some m)) 400 = n
    simp [mockStatus, h1, statusCoalesce]
  · intro he
    show jsCoalesce (mockError (some m)) defaultErrorResponse = defaultErrorResponse
    simp [mockError, he, jsCoalesce, JSValue.nullish]

/-- Witness for C4_status_forces_error: the edge case of the claim itself,
status 400 with a success payload provided and no error payload. -/
theorem C4_status_forces_error_witness :
    (mockResponse (some { success := JSValue.str "payload", status := some 400 })
        "https://api").ok = false :=
  (C4_status_forces_error { success := JSValue.str "payload", status := some 400 }
    "https://api" 400 rfl (by omega)).1

/-- C8: on every produced response `json()` and `text()` return the same
values on every call, and `text()` is exactly the JSON serialization of the
value `json()` resolves to. -/
theorem C8_accessor_coherence (mock : Option UnreadyFetchMock) (input : String)
    (u v : Unit) :
    (mockResponse mock input).json u = (mockResponse mock input).json v ∧
    (mockResponse mock input).text u = (mockResponse mock input).text v ∧
    (mockResponse mock input).text u =
      jsonStringify ((mockResponse mock input).json u) := by
  unfold mockResponse
  split
  · exact ⟨rfl, rfl, rfl⟩
  · exact ⟨rfl, rfl, rfl⟩

/-- C9: with the spec argument omitted the invocation takes the success
branch with both defaults (`ok = true`, status 200, default success
payload), and in every configuration the response's `url` equals the string
form of the target. -/
theorem C9_omitted_spec_defaults (input : String) (mock : Option UnreadyFetchMock) :
    (mockResponse none input).ok = true ∧
    (mockResponse none input).status = 200 ∧
    (mockResponse none input).json () = defaultSuccessResponse ∧
    (mockResponse mock input).url = input := by
  refine ⟨rfl, rfl, rfl, ?_⟩
  unfold mockResponse
  split
  · rfl
  · rfl

/-- C10 as stated is false on the error side: with `success = null` (falsy)
and `error = 0` — a defined value — the claim demands the error branch, but
`0` is falsy so `!!mock?.error` fails and the source resolves on the success
branch with `ok = true`. -/
theorem C10_falsy_defined_error_counterexample :
    (mockResponse (some { success := JSValue.null, error := JSValue.num 0 })
        "https://api").ok = true ∧
    JSValue.num 0 ≠ JSValue.undefined :=
  ⟨rfl, fun h => JSValue.noConfusion h⟩

/-- C10 (amended): with status absent or < 400, a falsy `success` together
with a truthy `error` selects the error branch; and in the success branch a
nullish `success` is replaced by the Default Success Payload, so `json()`
resolves to the default rather than the supplied `null`. -/
theorem C10_falsy_fields_as_absent (m : UnreadyFetchMock) (input : String)
    (hstat : ∀ n, m.status = some n → n < 400) :
    (m.success.truthy = false → m.error.truthy = true →
      (mockResponse (some m) input).ok = false) ∧
    (m.success.nullish = true → m.error.truthy = false →
      (mockResponse (some m) input).ok = true ∧
      (mockResponse (some m) input).json () = defaultSuccessResponse) := by
  have hge : statusGE400 (mockStatus (some m)) = false := by
    simp only [mockStatus]
    cases hm : m.status with
    | none => rfl
    | some n =>
      have h := hstat n hm
      simp only [statusGE400, decide_eq_false_iff_not]
      omega
  constructor
  · intro hs he
    have hc : ((statusTruthy (mockStatus (some m)) &&
          statusGE400 (mockStatus (some m))) ||
        (!(mockSuccess (some m)).truthy && (mockError (some m)).truthy)) = true := by
      simp [mockSuccess, mockError, hs, he]
    unfold mockResponse
    rw [if_pos hc]
  · intro hs he
    have hc : ((statusTruthy (mockStatus (some m)) &&
          statusGE400 (mockStatus (some m))) ||
        (!(mockSuccess (some m)).truthy && (mockError (some m)).truthy)) = false := by
      simp [mockSuccess, mockError, he, hge]
    unfold mockResponse
    rw [if_neg (by simp [hc])]
    refine ⟨rfl, ?_⟩
    show jsCoalesce (mockSuccess (some m)) defaultSuccessResponse =
      defaultSuccessResponse
    simp [mockSuccess, jsCoalesce, hs]

/-- Witness for C10_falsy_fields_as_absent at the concrete spec
`{ success: false, error: "e" }`. -/
theorem C10_falsy_fields_as_absent_witness :
    (mockResponse (some { success := JSValue.bool false, error := JSValue.str "e" })
        "https://api").ok = false :=
  (C10_falsy_fields_as_absent
    { success := JSValue.bool false, error := JSValue.str "e" } "https://api"
    (fun n h => Option.noConfusion h)).1 rfl (by decide)

/-- C5: whenever the signal fires abort before the timer fires, the timer is
cancelled (it stays cleared, so no event after the abort — the cancelled
timer included — can settle the promise again) and the promise is rejected
with the signal's reason value unchanged. -/
theorem C5_abort_before_timer (mock : Option UnreadyFetchMock) (input : String)
    (sg : AbortSignal) (pre post : List JSEvent) (hpre : JSEvent.timer ∉ pre) :
    (run mock input (some sg) (pre ++ JSEvent.abort :: post)).promise =
      .rejected sg.reason ∧
    (run mock input (some sg) (pre ++ JSEvent.abort :: post)).timerActive = false := by
  obtain ⟨rest, hrest⟩ :
      ∃ rest, pre ++ JSEvent.abort :: post = JSEvent.abort :: rest := by
    cases pre with
    | nil => exact ⟨post, rfl⟩
    | cons e p =>
      cases e with
      | timer => exact absurd (List.mem_cons_self _ _) hpre
      | abort => exact ⟨p ++ JSEvent.abort :: post, rfl⟩
  have h1 : step mock input (some sg) (initState (some sg)) JSEvent.abort =
      { promise := .rejected sg.reason, timerActive := false, listener := true } := by
    simp [step, initState, PromiseState.settle, signalReason]
  rw [hrest, run, List.foldl_cons, h1]
  exact ⟨run_settled_stays mock input (some sg) rest _ (by intro hc; cases hc),
    run_timer_stays_cleared mock input (some sg) rest _ rfl⟩

/-- Witness for C5_abort_before_timer: abort first, then the (cancelled)
timer event. -/
theorem C5_abort_before_timer_witness :
    (run none "https://api" (some { reason := JSValue.str "cancelled" })
        ([] ++ JSEvent.abort :: [JSEvent.timer])).promise =
      .rejected (JSValue.str "cancelled") ∧
    (run none "https://api" (some { reason := JSValue.str "cancelled" })
        ([] ++ JSEvent.abort :: [JSEvent.timer])).timerActive = false :=
  C5_abort_before_timer none "https://api" { reason := JSValue.str "cancelled" }
    [] [JSEvent.timer] (by simp)

/-- C6: the promise rejects only through the supplied signal.  With no
signal it is never rejected, whatever events occur, and resolves with the
mock response (an `ok = false` outcome included) once the timer fires.  With
any signal — in particular a supplied signal that never aborts, whose
schedules are exactly those with no `"abort"` event — the promise is never
rejected and resolves with the mock response once the timer fires.  And any
rejection that does occur carries the signal's reason verbatim. -/
theorem C6_reject_only_on_cancellation (mock : Option UnreadyFetchMock)
    (input : String) (signal : Option AbortSignal) (evs : List JSEvent)
    (sg : AbortSignal) (r : JSValue) :
    ((run mock input none evs).promise ≠ .rejected r) ∧
    (JSEvent.timer ∈ evs →
      (run mock input none evs).promise = .resolved (mockResponse mock input)) ∧
    (JSEvent.abort ∉ evs →
      (run mock input signal evs).promise ≠ .rejected r) ∧
    (JSEvent.abort ∉ evs → JSEvent.timer ∈ evs →
      (run mock input signal evs).promise = .resolved (mockResponse mock input)) ∧
    ((run mock input (some sg) evs).promise = .rejected r → r = sg.reason) := by
  refine ⟨?_, ?_, ?_, ?_, ?_⟩
  · rw [run_no_signal]
    split
    · intro h; cases h
    · intro h; cases h
  · intro h
    rw [run_no_signal, if_pos h]
  · intro hna
    rw [run_no_abort mock input signal evs hna]
    split
    · intro h; cases h
    · intro h; cases h
  · intro hna ht
    rw [run_no_abort mock input signal evs hna, if_pos ht]
  · intro h
    rcases run_promise_cases mock input (some sg) evs with hp | hp | hp
    · rw [hp] at h; cases h
    · rw [hp] at h; cases h
    · rw [hp] at h
      injection h with h'
      exact h'.symm

/-- Witness for C6_reject_only_on_cancellation: a supplied signal that never
aborts (no abort event in the schedule); the invocation resolves with the
mock response when the timer fires. -/
theorem C6_reject_only_on_cancellation_witness :
    (run none "https://api" (some { reason := JSValue.str "cancelled" })
        [JSEvent.timer]).promise = .resolved (mockResponse none "https://api") :=
  (C6_reject_only_on_cancellation none "https://api"
    (some { reason := JSValue.str "cancelled" }) [JSEvent.timer]
    { reason := JSValue.str "cancelled" } JSValue.undefined).2.2.2.1
    (by decide) (by decide)

/-- C7: once the timer has fired and resolved the promise, every later event
— a late abort firing included — leaves the promise resolved with the same
response: settlement happens at most once. -/
theorem C7_late_abort_noop (mock : Option UnreadyFetchMock) (input : String)
    (signal : Option AbortSignal) (rest : List JSEvent) :
    (run mock input signal (JSEvent.timer :: rest)).promise =
      .resolved (mockResponse mock input) := by
  have h1 : step mock input signal (initState signal) JSEvent.timer =
      { promise := .resolved (mockResponse mock input), timerActive := false,
        listener := signal.isSome } := by
    simp [step, initState, PromiseState.settle]
  rw [run, List.foldl_cons, h1]
  exact run_settled_stays mock input signal rest _ (by intro hc; cases hc)

/-- C1 is the behaviour the source fails to implement: it attaches the abort
listener without checking `signal.aborted` (source lines 129-136), and a
signal that is already aborted dispatched its `"abort"` event before the
listener existed.  Hence with an already-aborted signal no valid schedule
ever rejects the promise; the schedule in which the timer fires — the one
the host produces — is valid and resolves with the mock response, against
the claim's required immediate rejection with the signal's reason. -/
theorem C1_already_aborted_resolves :
    (∀ evs : List JSEvent,
      validSchedule (some { reason := JSValue.str "pre-aborted", aborted := true })
        evs →
      ∀ r : JSValue,
        (run none "https://api"
            (some { reason := JSValue.str "pre-aborted", aborted := true })
            evs).promise ≠ .rejected r) ∧
    validSchedule (some { reason := JSValue.str "pre-aborted", aborted := true })
      [JSEvent.timer] ∧
    (run none "https://api"
        (some { reason := JSValue.str "pre-aborted", aborted := true })
        [JSEvent.timer]).promise =
      .resolved (mockResponse none "https://api") := by
  refine ⟨?_, ⟨?_, ?_, ?_⟩, rfl⟩
  · intro evs hv r
    have habs : JSEvent.abort ∉ evs := by
      intro hm
      obtain ⟨sg, hsg, hab⟩ := hv.2.2 hm
      have : sg.aborted = true := by
        cases Option.some.inj hsg
        rfl
      rw [this] at hab
      cases hab
    rw [run_no_abort none "https://api" _ evs habs]
    split
    · intro h; cases h
    · intro h; cases h
  · decide
  · decide
  · intro hm
    exact absurd hm (by decide)
